import Mathlib

/-!
# cf2tg: a shallow embedding of `main.go`

The program fetches two lists of "optimized" addresses (IPv4, IPv6) from an
HTTP API, flattens the region map of each response into a list of address
strings, keeps the first 25 of each family, and posts one text message to
Telegram.

Conventions of the embedding.

* Go `string` is `String`, Go `int` is `Int` (no arithmetic of the program can
  overflow: the only integers computed are `len` and `min (len, 25)`).
* Go `[]T` is `List T`.
* The length of a text is counted in characters (`String.length`).
* The map `Info` is the list of its key/value pairs *in the order in which
  the `range` statement visits them*. Go leaves that order unspecified, so a
  statement about the map as a collection quantifies over all permutations.
* The network, the environment and the JSON decoder are inputs of the model.
* The observable behaviour of `main` is the list of events it produces.
-/

set_option autoImplicit false

namespace Cf2tg

/-! ## Data model (main.go, lines 13-34) -/

/-- The constant `APIKey`. -/
def APIKey : String := "o1zrmHAF"

/-- The struct `OptimizationIP`: one address record of the API response. -/
structure OptimizationIP where
  Colo : String
  IP : String
  Latency : Int
  Line : String
  Loss : Int
  Node : String
  Speed : Int
  Time : String
deriving DecidableEq

/-- The struct `OptimizationIPResponse`. `Info` lists the entries of the Go
map in the order of iteration. -/
structure OptimizationIPResponse where
  Code : Int
  Total : Int
  Info : List (String × List OptimizationIP)
deriving DecidableEq

/-! ## Pure helpers (main.go, lines 167-180) -/

/-- The function `min` of main.go (lines 175-180). -/
def min (a b : Int) : Int :=
  if a < b then a else b

/-- Go's `strings.Join`: no element gives the empty string, one element is
returned as is, otherwise the first element is written and then, for every
later element, the separator followed by the element. -/
def Join : List String → String → String
  | [], _ => ""
  | [e], _ => e
  | e :: rest, sep => rest.foldl (fun b s => b ++ sep ++ s) e

/-- The loop of `formatIPs` (lines 169-171): slot `i` of the result slice is
overwritten with the address of index `i` between two backticks. -/
def formatLoop (ips : List String) (formattedIPs : List String) : List String :=
  ips.enum.foldl (fun acc p => acc.set p.1 ("`" ++ p.2 ++ "`")) formattedIPs

/-- The function `formatIPs` (lines 167-173): a slice of `len(ips)` empty
strings is allocated, filled by the loop and joined with newlines. -/
def formatIPs (ips : List String) : String :=
  Join (formatLoop ips (List.replicate ips.length "")) "\n"

/-- The slice expression `s[:high]`. Go panics (here `none`) when `high` is
negative or exceeds the capacity; the length is used as the bound, which is
what the program relies on (`high` never exceeds `len(s)`). -/
def sliceTo (s : List String) (high : Int) : Option (List String) :=
  if 0 ≤ high ∧ high ≤ (s.length : Int) then some (s.take high.toNat) else none

/-- The expression `formatIPs(ips[:min(len(ips), 25)])` of lines 155 and 158:
select at most 25 addresses and format them. -/
def selectAndFormat (ips : List String) : Option String :=
  (sliceTo ips (min (ips.length : Int) 25)).map formatIPs

/-! ## Flattening (main.go, lines 128-135 and 143-150) -/

/-- The nested `range` loops: every record of every region, in iteration
order, has its `IP` appended to the accumulator. -/
def flattenInto (acc : List String) (info : List (String × List OptimizationIP)) :
    List String :=
  info.foldl (fun acc region => region.2.foldl (fun acc ip => acc ++ [ip.IP]) acc) acc

/-- The flattened address list of one family: empty unless `Code == 200` and
`Total > 0`. -/
def addresses (r : OptimizationIPResponse) : List String :=
  if r.Code = 200 ∧ r.Total > 0 then flattenInto [] r.Info else []

/-! ## The outside world -/

/-- What one HTTP POST of `getOptimizationIP` meets: `client.Do` fails, or a
response arrives with a status code and a body that `io.ReadAll` either
fails to read or returns. -/
inductive HttpOutcome where
  | sendFailed (err : String)
  | response (status : Int) (body : Except String String)

/-- What the HTTP POST of `sendMessageToTelegram` meets: `http.Post` fails,
or a response arrives with a status code and a body; `shown` is the text
that `fmt.Print(resp)` writes for that response. -/
inductive TelegramOutcome where
  | postFailed (err : String)
  | response (status : Int) (body : String) (shown : String)

/-- The inputs of one run: the process environment, the provider's answer
to a request of a given `type`, the JSON decoder (`json.Unmarshal` into an
`OptimizationIPResponse`), and Telegram's answer to a `sendMessage` call
with the given token, chat id, text and photo. -/
structure World where
  env : String → Option String
  provider : String → HttpOutcome
  unmarshal : String → Except String OptimizationIPResponse
  telegram : String → String → String → String → TelegramOutcome

/-- The observable steps of a run. -/
inductive Event where
  | print (text : String)
  | fetch (ipType : String)
  | notify (token chatID message imageURL : String)
  | panic
deriving DecidableEq

/-- Go's `os.LookupEnv`: the value (empty when unset) and whether it is set. -/
def LookupEnv (env : String → Option String) (key : String) : String × Bool :=
  match env key with
  | some v => (v, true)
  | none => ("", false)

/-! ## The fetcher (main.go, lines 36-79) -/

/-- The function `getOptimizationIP`. Marshalling a `map[string]string` and
building a request for a constant, well-formed URL cannot fail, so the first
two error returns are unreachable; the remaining ones are: transport error,
status other than 200, unreadable body, body that does not decode. -/
def getOptimizationIP (w : World) (ipType : String) :
    Except String OptimizationIPResponse :=
  match w.provider ipType with
  | .sendFailed err => .error ("failed to send request: " ++ err)
  | .response status body =>
    if status ≠ 200 then
      .error ("unexpected status code: " ++ toString status)
    else
      match body with
      | .error err => .error ("failed to read response body: " ++ err)
      | .ok body =>
        match w.unmarshal body with
        | .error err => .error ("failed to unmarshal response: " ++ err)
        | .ok response => .ok response

/-! ## The notifier (main.go, lines 81-108) -/

/-- The function `sendMessageToTelegram`: the events of the call (the call
itself, then what it prints) and the returned error, if any. -/
def sendMessageToTelegram (w : World) (TelegramBotToken chatID message imageURL : String) :
    List Event × Option String :=
  let call := Event.notify TelegramBotToken chatID message imageURL
  match w.telegram TelegramBotToken chatID message imageURL with
  | .postFailed err => ([call], some ("failed to send message to Telegram: " ++ err))
  | .response status body shown =>
    if status ≠ 200 then
      ([call], some ("unexpected status code: " ++ toString status ++ ", response: " ++ body))
    else
      ([call, Event.print shown], none)

/-! ## The orchestrator (main.go, lines 110-165) -/

/-- Lines 153-160: the message text, built by successive `+=`. The result
is `none` if a slice expression panics. -/
def buildMessage (ipv4 ipv6 : List String) : Option String :=
  let message := "CloudFlare Optimized IPs:\n\n"
  (if ipv4.length > 0 then
    (selectAndFormat ipv4).map fun block => message ++ ("IPv4:\n" ++ block ++ "\n\n")
  else some message).bind fun message =>
  (if ipv6.length > 0 then
    (selectAndFormat ipv6).map fun block => message ++ ("IPv6:\n" ++ block ++ "\n\n")
  else some message).map fun message =>
  message ++ "@infoakungratis"

/-- Lines 152-164: nothing happens when both lists are empty; otherwise the
message is built and sent, and a send error is printed. -/
def report (w : World) (TelegramBotToken TelegramChatID imageURL : String)
    (ipv4 ipv6 : List String) : List Event :=
  if ipv4.length > 0 ∨ ipv6.length > 0 then
    match buildMessage ipv4 ipv6 with
    | none => [Event.panic]
    | some message =>
      match sendMessageToTelegram w TelegramBotToken TelegramChatID message imageURL with
      | (events, some err) =>
        events ++ [Event.print ("Error sending message to Telegram: " ++ err ++ "\n")]
      | (events, none) => events
  else []

/-- Lines 113-120: the two environment lookups and their warnings. -/
def readConfig (w : World) : (String × String) × List Event :=
  let (TelegramBotToken, ok) := LookupEnv w.env "BOT_TOKEN"
  let e1 := if !ok then [Event.print "BOT_TOKEN not set\n"] else []
  let (TelegramChatID, ok) := LookupEnv w.env "CHAT_ID"
  let e2 := if !ok then [Event.print "CHAT_ID not set\n"] else []
  ((TelegramBotToken, TelegramChatID), e1 ++ e2)

/-- The function `main`: the list of events of one run. -/
def main (w : World) : List Event :=
  let imageURL := "images.png"
  let ((TelegramBotToken, TelegramChatID), events) := readConfig w
  let events := events ++ [Event.fetch "v4"]
  match getOptimizationIP w "v4" with
  | .error err => events ++ [Event.print ("Error getting IPv4: " ++ err ++ "\n")]
  | .ok ipv4Response =>
    let ipv4 := addresses ipv4Response
    let events := events ++ [Event.fetch "v6"]
    match getOptimizationIP w "v6" with
    | .error err => events ++ [Event.print ("Error getting IPv6: " ++ err ++ "\n")]
    | .ok ipv6Response =>
      let ipv6 := addresses ipv6Response
      events ++ report w TelegramBotToken TelegramChatID imageURL ipv4 ipv6

/-! ## Observations on a run -/

/-- The calls of the notifier in a run, as (token, chat id, text, photo). -/
def notifications : List Event → List (String × String × String × String)
  | [] => []
  | Event.notify t c m i :: rest => (t, c, m, i) :: notifications rest
  | _ :: rest => notifications rest

/-- The texts printed by a run. -/
def printed : List Event → List String
  | [] => []
  | Event.print s :: rest => s :: printed rest
  | _ :: rest => printed rest

/-- The pieces of a text between its newline characters. -/
def splitNewline : List Char → List (List Char)
  | [] => [[]]
  | c :: cs =>
    if c = '\n' then [] :: splitNewline cs
    else
      match splitNewline cs with
      | [] => [[c]]
      | l :: ls => (c :: l) :: ls

/-- The newline-separated lines of a text; the empty text has no line. -/
def lines (s : String) : List String :=
  if s = "" then [] else (splitNewline s.data).map String.mk

/-- The address records of a response, whatever its `Code` and `Total`. -/
def records (r : OptimizationIPResponse) : List OptimizationIP :=
  r.Info.flatMap fun region => region.2

/-! ## Sample inputs -/

/-- A record with the given address. -/
def sampleRecord (ip : String) : OptimizationIP :=
  { Colo := "LAX", IP := ip, Latency := 120, Line := "CM", Loss := 0, Node := "node-1",
    Speed := 800, Time := "2024-01-01 00:00:00" }

/-- A world in which both variables are set, the provider answers the `v4`
request with `v4` and any other with `v6`, bodies decode with `decode`, and
Telegram accepts every message. -/
def sampleWorld (v4 v6 : HttpOutcome)
    (decode : String → Except String OptimizationIPResponse) : World :=
  { env := fun key =>
      if key = "BOT_TOKEN" then some "123:abc" else if key = "CHAT_ID" then some "-1001" else none
    provider := fun ipType => if ipType = "v4" then v4 else v6
    unmarshal := decode
    telegram := fun _ _ _ _ => TelegramOutcome.response 200 "ok" "200 OK" }

/-- A decoder that knows two bodies, named `body-v4` and `body-v6`. -/
def sampleDecode (r4 r6 : OptimizationIPResponse) (body : String) :
    Except String OptimizationIPResponse :=
  if body = "body-v4" then .ok r4
  else if body = "body-v6" then .ok r6
  else .error "invalid character"

/-- A world in which both fetches succeed with the given decoded responses. -/
def successWorld (r4 r6 : OptimizationIPResponse) : World :=
  sampleWorld (.response 200 (.ok "body-v4")) (.response 200 (.ok "body-v6")) (sampleDecode r4 r6)

/-- The response `{code:200, total:2, info:{"US":[1.1.1.1, 1.1.1.2]}}`. -/
def twoAddresses : OptimizationIPResponse :=
  { Code := 200, Total := 2, Info := [("US", [sampleRecord "1.1.1.1", sampleRecord "1.1.1.2"])] }

/-- The response `{code:200, total:0, info:{}}`. -/
def noAddresses : OptimizationIPResponse :=
  { Code := 200, Total := 0, Info := [] }

/-- The response `{code:500}`: the other fields have their zero values. -/
def code500 : OptimizationIPResponse :=
  { Code := 500, Total := 0, Info := [] }

/-- A response with one IPv6 address. -/
def oneAddressV6 : OptimizationIPResponse :=
  { Code := 200, Total := 1, Info := [("EU", [sampleRecord "2606:4700::1"])] }

/-- A response with two regions, visited in the order `US`, `DE`. -/
def twoRegions : OptimizationIPResponse :=
  { Code := 200, Total := 3,
    Info := [("US", [sampleRecord "1.1.1.1", sampleRecord "1.1.1.2"]),
             ("DE", [sampleRecord "1.0.0.1"])] }

/-- Thirty addresses `a0` ... `a29`. -/
def thirtyAddresses : List String :=
  (List.range 30).map fun i => "a" ++ toString i

/-- A response with the thirty addresses `a0` ... `a29` in one region. -/
def thirtyRecords : OptimizationIPResponse :=
  { Code := 200, Total := 30, Info := [("US", thirtyAddresses.map sampleRecord)] }

/-- A world in which the v4 fetch succeeds with two addresses and the v6
request is answered with HTTP status 503. -/
def v6DownWorld : World :=
  sampleWorld (.response 200 (.ok "body-v4")) (.response 503 (.ok ""))
    (sampleDecode twoAddresses noAddresses)

/-- A world in which the v4 fetch returns `{code:500}` and the v6 request
fails in transport. -/
def code500ThenTimeout : World :=
  sampleWorld (.response 200 (.ok "body-v4")) (.sendFailed "timeout")
    (sampleDecode code500 oneAddressV6)

/-- A response whose `Code` is 201 although `Total` is 1 and `Info` holds
two records. -/
def code201WithRecords : OptimizationIPResponse :=
  { Code := 201, Total := 1,
    Info := [("US", [sampleRecord "1.1.1.1", sampleRecord "1.1.1.2"])] }

/-- A response whose `Total` is 0 although `Code` is 200 and `Info` holds
three records in two regions. -/
def totalZeroWithRecords : OptimizationIPResponse :=
  { Code := 200, Total := 0,
    Info := [("US", [sampleRecord "1.1.1.1", sampleRecord "1.1.1.2"]),
             ("DE", [sampleRecord "1.0.0.1"])] }

/-! ## Lemmas on the helpers -/

theorem min_len_lt (n : Nat) (h : n < 25) : min (n : Int) 25 = (n : Int) := by
  unfold min
  rw [if_pos (by omega)]

theorem min_len_ge (n : Nat) (h : 25 ≤ n) : min (n : Int) 25 = 25 := by
  unfold min
  rw [if_neg (by omega)]

theorem sliceTo_min (ips : List String) :
    sliceTo ips (min (ips.length : Int) 25) = some (ips.take 25) := by
  unfold sliceTo
  by_cases h : ips.length < 25
  · rw [min_len_lt _ h, if_pos ⟨by omega, le_refl _⟩, Int.toNat_ofNat,
      List.take_of_length_le (le_refl _), List.take_of_length_le (by omega)]
  · rw [min_len_ge _ (by omega), if_pos ⟨by omega, by omega⟩]
    rfl

theorem selectAndFormat_eq (ips : List String) :
    selectAndFormat ips = some (formatIPs (ips.take 25)) := by
  unfold selectAndFormat
  rw [sliceTo_min]
  rfl

theorem flattenInner_eq (acc : List String) (region : List OptimizationIP) :
    region.foldl (fun acc ip => acc ++ [ip.IP]) acc = acc ++ region.map (fun ip => ip.IP) := by
  induction region generalizing acc with
  | nil => simp
  | cons r rs ih => simp [List.foldl_cons, ih]

theorem flattenInto_eq (acc : List String) (info : List (String × List OptimizationIP)) :
    flattenInto acc info
      = acc ++ info.flatMap (fun region => region.2.map (fun ip => ip.IP)) := by
  unfold flattenInto
  induction info generalizing acc with
  | nil => simp
  | cons e es ih =>
    rw [List.foldl_cons, ih, flattenInner_eq]
    simp [List.flatMap_cons]

theorem formatLoop_aux (ips pre : List String) :
    (ips.enumFrom pre.length).foldl (fun acc p => acc.set p.1 ("`" ++ p.2 ++ "`"))
        (pre ++ List.replicate ips.length "")
      = pre ++ ips.map (fun ip => "`" ++ ip ++ "`") := by
  induction ips generalizing pre with
  | nil => simp
  | cons a t ih =>
    have h := ih (pre ++ ["`" ++ a ++ "`"])
    simp only [List.length_append, List.length_singleton, List.append_assoc,
      List.singleton_append] at h
    simp only [List.enumFrom_cons, List.foldl_cons, List.length_cons, List.replicate_succ,
      List.map_cons]
    rw [List.set_append_right _ _ (le_refl _)]
    simpa using h

theorem formatLoop_eq (ips : List String) :
    formatLoop ips (List.replicate ips.length "") = ips.map (fun ip => "`" ++ ip ++ "`") := by
  have h := formatLoop_aux ips []
  simpa [formatLoop, List.enum] using h

theorem Join_foldl_append (rest : List String) (x y sep : String) :
    rest.foldl (fun b s => b ++ sep ++ s) (x ++ y)
      = x ++ rest.foldl (fun b s => b ++ sep ++ s) y := by
  induction rest generalizing y with
  | nil => rfl
  | cons r rs ih =>
    simp only [List.foldl_cons]
    rw [String.append_assoc, String.append_assoc, ← String.append_assoc y, ih]

theorem Join_cons_cons (a b : String) (rest : List String) (sep : String) :
    Join (a :: b :: rest) sep = a ++ sep ++ Join (b :: rest) sep := by
  have h : Join (b :: rest) sep = rest.foldl (fun b s => b ++ sep ++ s) b := by
    cases rest <;> rfl
  rw [h]
  show rest.foldl (fun b s => b ++ sep ++ s) (a ++ sep ++ b) = _
  rw [Join_foldl_append]

theorem formatIPs_nil : formatIPs [] = "" := rfl

theorem formatIPs_singleton (a : String) : formatIPs [a] = "`" ++ a ++ "`" := by
  unfold formatIPs
  rw [formatLoop_eq]
  rfl

theorem formatIPs_cons_cons (a b : String) (rest : List String) :
    formatIPs (a :: b :: rest) = "`" ++ a ++ "`" ++ "\n" ++ formatIPs (b :: rest) := by
  unfold formatIPs
  rw [formatLoop_eq, formatLoop_eq]
  simp only [List.map_cons]
  rw [Join_cons_cons]

theorem Join_foldl_eq_go (rest : List String) (acc sep : String) :
    rest.foldl (fun b s => b ++ sep ++ s) acc = String.intercalate.go acc sep rest := by
  induction rest generalizing acc with
  | nil => rfl
  | cons r rs ih =>
    rw [List.foldl_cons, ih]
    rfl

theorem Join_eq_intercalate (elems : List String) (sep : String) :
    Join elems sep = String.intercalate sep elems := by
  cases elems with
  | nil => rfl
  | cons a t =>
    cases t with
    | nil => rfl
    | cons b t =>
      show (b :: t).foldl (fun b s => b ++ sep ++ s) a = _
      rw [Join_foldl_eq_go]
      rfl

theorem formatIPs_eq_intercalate (ips : List String) :
    formatIPs ips = String.intercalate "\n" (ips.map fun ip => "`" ++ ip ++ "`") := by
  unfold formatIPs
  rw [formatLoop_eq, Join_eq_intercalate]

theorem buildMessage_eq (ipv4 ipv6 : List String) :
    buildMessage ipv4 ipv6
      = some ("CloudFlare Optimized IPs:\n\n"
          ++ (if ipv4.length > 0 then "IPv4:\n" ++ formatIPs (ipv4.take 25) ++ "\n\n" else "")
          ++ (if ipv6.length > 0 then "IPv6:\n" ++ formatIPs (ipv6.take 25) ++ "\n\n" else "")
          ++ "@infoakungratis") := by
  unfold buildMessage
  simp only [selectAndFormat_eq, Option.map_some']
  by_cases h4 : ipv4.length > 0 <;> by_cases h6 : ipv6.length > 0 <;>
    simp [h4, h6, String.append_assoc]

theorem splitNewline_of_not_mem (a : List Char) (h : '\n' ∉ a) : splitNewline a = [a] := by
  induction a with
  | nil => rfl
  | cons c cs ih =>
    have hc : c ≠ '\n' := fun e => h (by simp [e])
    have hcs : '\n' ∉ cs := fun e => h (List.mem_cons_of_mem _ e)
    simp [splitNewline, hc, ih hcs]

theorem splitNewline_append (a rest : List Char) (h : '\n' ∉ a) :
    splitNewline (a ++ '\n' :: rest) = a :: splitNewline rest := by
  induction a with
  | nil => simp [splitNewline]
  | cons c cs ih =>
    have hc : c ≠ '\n' := fun e => h (by simp [e])
    have hcs : '\n' ∉ cs := fun e => h (List.mem_cons_of_mem _ e)
    simp [splitNewline, hc, ih hcs]

theorem wrap_data (a : String) : ("`" ++ a ++ "`").data = "`".data ++ a.data ++ "`".data := by
  simp [String.data_append]

theorem wrap_no_newline (a : String) (h : '\n' ∉ a.data) : '\n' ∉ ("`" ++ a ++ "`").data := by
  rw [wrap_data]
  intro hm
  rcases List.mem_append.mp hm with hm | hm
  · rcases List.mem_append.mp hm with hm | hm
    · revert hm; decide
    · exact h hm
  · revert hm; decide

theorem splitNewline_formatIPs (a : String) (t : List String)
    (h : ∀ x ∈ a :: t, '\n' ∉ x.data) :
    splitNewline (formatIPs (a :: t)).data
      = (a :: t).map fun ip => ("`" ++ ip ++ "`").data := by
  induction t generalizing a with
  | nil =>
    rw [formatIPs_singleton]
    exact splitNewline_of_not_mem _ (wrap_no_newline a (h a (List.mem_cons_self _ _)))
  | cons b t ih =>
    rw [formatIPs_cons_cons, String.data_append, String.data_append]
    have hb : ∀ x ∈ b :: t, '\n' ∉ x.data := fun x hx => h x (List.mem_cons_of_mem _ hx)
    have hn : "\n".data = ['\n'] := rfl
    rw [hn, List.append_assoc, List.singleton_append,
      splitNewline_append _ _ (wrap_no_newline a (h a (List.mem_cons_self _ _))), ih b hb]
    rfl

theorem formatIPs_length (a : String) (t : List String) :
    (formatIPs (a :: t)).length = a.length + 2 + (t.map fun b => b.length + 3).sum := by
  induction t generalizing a with
  | nil =>
    rw [formatIPs_singleton]
    have h1 : "`".length = 1 := rfl
    simp only [String.length_append, h1, List.map_nil, List.sum_nil]
    omega
  | cons b t ih =>
    rw [formatIPs_cons_cons]
    simp only [String.length_append, ih b, List.map_cons, List.sum_cons]
    have h1 : "`".length = 1 := rfl
    have h2 : "\n".length = 1 := rfl
    omega

theorem lines_formatIPs (ips : List String) (h : ∀ x ∈ ips, '\n' ∉ x.data) :
    lines (formatIPs ips) = ips.map fun ip => "`" ++ ip ++ "`" := by
  cases ips with
  | nil => rfl
  | cons a t =>
    have hne : formatIPs (a :: t) ≠ "" := by
      intro e
      have hl := formatIPs_length a t
      rw [e] at hl
      have h0 : "".length = 0 := rfl
      omega
    unfold lines
    rw [if_neg hne, splitNewline_formatIPs a t h, List.map_map]
    rfl

/-! ## Lemmas on the orchestrator -/

theorem notifications_append (xs ys : List Event) :
    notifications (xs ++ ys) = notifications xs ++ notifications ys := by
  induction xs with
  | nil => rfl
  | cons e es ih => cases e <;> simp [notifications, ih]

theorem notifications_readConfig (w : World) : notifications (readConfig w).2 = [] := by
  unfold readConfig LookupEnv
  cases w.env "BOT_TOKEN" <;> cases w.env "CHAT_ID" <;> rfl

theorem main_v4_error (w : World) (e : String) (h4 : getOptimizationIP w "v4" = .error e) :
    main w = (readConfig w).2
      ++ [Event.fetch "v4", Event.print ("Error getting IPv4: " ++ e ++ "\n")] := by
  simp [main, h4]

theorem main_v6_error (w : World) (r4 : OptimizationIPResponse) (e : String)
    (h4 : getOptimizationIP w "v4" = .ok r4) (h6 : getOptimizationIP w "v6" = .error e) :
    main w = (readConfig w).2
      ++ [Event.fetch "v4", Event.fetch "v6",
          Event.print ("Error getting IPv6: " ++ e ++ "\n")] := by
  simp [main, h4, h6]

theorem main_ok (w : World) (r4 r6 : OptimizationIPResponse)
    (h4 : getOptimizationIP w "v4" = .ok r4) (h6 : getOptimizationIP w "v6" = .ok r6) :
    main w = (readConfig w).2 ++ [Event.fetch "v4", Event.fetch "v6"]
      ++ report w (LookupEnv w.env "BOT_TOKEN").1 (LookupEnv w.env "CHAT_ID").1 "images.png"
          (addresses r4) (addresses r6) := by
  simp [main, h4, h6, readConfig]

theorem notifications_send (w : World) (t c m i : String) :
    notifications
        (match sendMessageToTelegram w t c m i with
          | (events, some err) =>
            events ++ [Event.print ("Error sending message to Telegram: " ++ err ++ "\n")]
          | (events, none) => events)
      = [(t, c, m, i)] := by
  unfold sendMessageToTelegram
  cases w.telegram t c m i with
  | postFailed err => rfl
  | response status body shown =>
    by_cases hs : status = 200
    · simp [hs, notifications]
    · simp [hs, notifications]

theorem notifications_report (w : World) (t c i : String) (ipv4 ipv6 : List String) :
    notifications (report w t c i ipv4 ipv6)
      = if ipv4.length > 0 ∨ ipv6.length > 0 then
          [(t, c,
            "CloudFlare Optimized IPs:\n\n"
              ++ (if ipv4.length > 0 then "IPv4:\n" ++ formatIPs (ipv4.take 25) ++ "\n\n" else "")
              ++ (if ipv6.length > 0 then "IPv6:\n" ++ formatIPs (ipv6.take 25) ++ "\n\n" else "")
              ++ "@infoakungratis", i)]
        else [] := by
  unfold report
  by_cases h : ipv4.length > 0 ∨ ipv6.length > 0
  · rw [if_pos h, if_pos h, buildMessage_eq]
    exact notifications_send w t c _ i
  · rw [if_neg h, if_neg h]
    rfl

theorem notifications_main_ok (w : World) (r4 r6 : OptimizationIPResponse)
    (h4 : getOptimizationIP w "v4" = .ok r4) (h6 : getOptimizationIP w "v6" = .ok r6) :
    notifications (main w)
      = notifications (report w (LookupEnv w.env "BOT_TOKEN").1 (LookupEnv w.env "CHAT_ID").1
          "images.png" (addresses r4) (addresses r6)) := by
  rw [main_ok w r4 r6 h4 h6, notifications_append, notifications_append,
    notifications_readConfig]
  rfl

theorem getOptimizationIP_error_iff (w : World) (ipType : String) :
    (∃ e, getOptimizationIP w ipType = .error e)
      ↔ (∃ err, w.provider ipType = .sendFailed err)
        ∨ (∃ status body, w.provider ipType = .response status body ∧ status ≠ 200)
        ∨ (∃ err, w.provider ipType = .response 200 (.error err))
        ∨ (∃ body err, w.provider ipType = .response 200 (.ok body)
            ∧ w.unmarshal body = .error err) := by
  unfold getOptimizationIP
  cases hp : w.provider ipType with
  | sendFailed err => simp
  | response status body =>
    by_cases hs : status = 200
    · subst hs
      cases body with
      | error err => simp
      | ok body =>
        cases hu : w.unmarshal body with
        | error err => simp [hu]
        | ok r => simp [hu]
    · simp [hs]

theorem mem_addresses (r : OptimizationIPResponse) (a : String) (h : a ∈ addresses r) :
    ∃ ip ∈ records r, ip.IP = a := by
  unfold addresses at h
  split at h
  · rw [flattenInto_eq, List.nil_append] at h
    obtain ⟨region, hr, ha⟩ := List.mem_flatMap.mp h
    obtain ⟨ip, hip, he⟩ := List.mem_map.mp ha
    exact ⟨ip, List.mem_flatMap.mpr ⟨region, hr, hip⟩, he⟩
  · cases h

theorem sum_length_le (t : List String) (h : ∀ a ∈ t, a.length ≤ 45) :
    (t.map fun b => b.length + 3).sum ≤ 48 * t.length := by
  induction t with
  | nil => simp
  | cons b t ih =>
    have hb := h b (List.mem_cons_self _ _)
    have ht := ih fun a ha => h a (List.mem_cons_of_mem _ ha)
    simp only [List.map_cons, List.sum_cons, List.length_cons]
    omega

theorem formatIPs_length_le (ips : List String) (hn : ips.length ≤ 25)
    (h : ∀ a ∈ ips, a.length ≤ 45) : (formatIPs ips).length ≤ 25 * 47 + 24 := by
  cases ips with
  | nil => simp [formatIPs_nil]
  | cons a t =>
    rw [formatIPs_length]
    have ha := h a (List.mem_cons_self _ _)
    have ht := sum_length_le t fun x hx => h x (List.mem_cons_of_mem _ hx)
    simp only [List.length_cons] at hn
    omega

theorem block_length_le (label : String) (ips : List String) (hl : label.length = 6)
    (h : ∀ a ∈ ips, a.length ≤ 45) :
    (if ips.length > 0 then label ++ formatIPs (ips.take 25) ++ "\n\n" else "").length
      ≤ 6 + 25 * 47 + 24 + 2 := by
  split
  · have hf := formatIPs_length_le (ips.take 25)
      (by rw [List.length_take]; exact Nat.min_le_left _ _)
      (fun a ha => h a (List.mem_of_mem_take ha))
    have h2 : "\n\n".length = 2 := rfl
    simp only [String.length_append, hl, h2]
    omega
  · simp

/-! ## The claims -/

/-- C1. For a response with `Code == 200` and `Total > 0`, and for every
iteration order `r.Info` of the map whose entries are `info`, the flattened
address list is, as a multiset, the collection of the `IP` fields of all
records of all region lists; its length is the sum of the lengths of the
region lists; and the addresses of each region occur in it as one contiguous
block in their original order. -/
theorem addresses_exact (r : OptimizationIPResponse)
    (info : List (String × List OptimizationIP))
    (hcode : r.Code = 200) (htotal : r.Total > 0) (horder : r.Info.Perm info) :
    (Multiset.ofList (addresses r)
        = Multiset.ofList (info.flatMap fun region => region.2.map fun ip => ip.IP))
      ∧ (addresses r).length = (info.map fun region => region.2.length).sum
      ∧ ∀ region ∈ info, ∃ before after,
          addresses r = before ++ (region.2.map fun ip => ip.IP) ++ after := by
  have hflat : addresses r = r.Info.flatMap fun region => region.2.map fun ip => ip.IP := by
    unfold addresses
    rw [if_pos ⟨hcode, htotal⟩, flattenInto_eq, List.nil_append]
  have hperm : (addresses r).Perm (info.flatMap fun region => region.2.map fun ip => ip.IP) := by
    rw [hflat]
    exact List.Perm.flatMap_right _ horder
  refine ⟨Multiset.coe_eq_coe.mpr hperm, ?_, ?_⟩
  · rw [hperm.length_eq]
    clear hperm hflat horder
    induction info with
    | nil => rfl
    | cons e es ih => simp [List.flatMap_cons, ih]
  · intro region hmem
    have hmem2 : region ∈ r.Info := horder.symm.subset hmem
    obtain ⟨a, b, hab⟩ := List.append_of_mem hmem2
    refine ⟨a.flatMap (fun region => region.2.map fun ip => ip.IP),
      b.flatMap (fun region => region.2.map fun ip => ip.IP), ?_⟩
    rw [hflat, hab]
    simp [List.flatMap_append, List.flatMap_cons]

/-- C2. For a response with `Code != 200` or `Total == 0`, whatever `Info`
holds, the flattened address list is empty, and the message built with it
consists of the header, the block of the other family (if that one has
addresses) and the signature: the family adds no section of its own. -/
theorem addresses_empty (r : OptimizationIPResponse) (h : r.Code ≠ 200 ∨ r.Total = 0) :
    addresses r = []
      ∧ (∀ ipv6 : List String, buildMessage (addresses r) ipv6
          = some ("CloudFlare Optimized IPs:\n\n"
              ++ (if ipv6.length > 0 then "IPv6:\n" ++ formatIPs (ipv6.take 25) ++ "\n\n" else "")
              ++ "@infoakungratis"))
      ∧ (∀ ipv4 : List String, buildMessage ipv4 (addresses r)
          = some ("CloudFlare Optimized IPs:\n\n"
              ++ (if ipv4.length > 0 then "IPv4:\n" ++ formatIPs (ipv4.take 25) ++ "\n\n" else "")
              ++ "@infoakungratis")) := by
  have he : addresses r = [] := by
    unfold addresses
    rw [if_neg]
    rintro ⟨h1, h2⟩
    rcases h with h | h
    · exact h h1
    · omega
  refine ⟨he, ?_, ?_⟩
  · intro ipv6
    rw [he, buildMessage_eq]
    simp
  · intro ipv4
    rw [he, buildMessage_eq]
    simp

/-- C3. For every list of `n` addresses, none containing a newline, the
select-and-format step returns a text whose newline-separated lines are the
first 25 addresses, each between backticks; there are exactly `min n 25` of
them (none for the empty text), hence never more than 25. -/
theorem selectAndFormat_lines (addrs : List String) (h : ∀ a ∈ addrs, '\n' ∉ a.data) :
    ∃ out, selectAndFormat addrs = some out
      ∧ lines out = (addrs.take 25).map (fun ip => "`" ++ ip ++ "`")
      ∧ (lines out).length = Nat.min addrs.length 25
      ∧ (lines out).length ≤ 25 := by
  have hl : lines (formatIPs (addrs.take 25))
      = (addrs.take 25).map (fun ip => "`" ++ ip ++ "`") :=
    lines_formatIPs _ fun x hx => h x (List.mem_of_mem_take hx)
  refine ⟨formatIPs (addrs.take 25), selectAndFormat_eq addrs, hl, ?_, ?_⟩
  · rw [hl, List.length_map, List.length_take]
    exact Nat.min_comm _ _
  · rw [hl, List.length_map, List.length_take]
    exact Nat.min_le_left _ _

/-- C4. `formatIPs` returns the addresses, each unmodified between one
backtick before and one after, in input order, joined by single newlines:
the empty list gives the empty string, one address gives just the wrapped
address, and a longer list gives the wrapped head, one newline, and the
formatted tail (so no separator leads or trails). -/
theorem formatIPs_spec (ips : List String) :
    formatIPs ips = String.intercalate "\n" (ips.map fun ip => "`" ++ ip ++ "`")
      ∧ formatIPs [] = ""
      ∧ (∀ a : String, formatIPs [a] = "`" ++ a ++ "`")
      ∧ (∀ (a b : String) (rest : List String),
          formatIPs (a :: b :: rest) = "`" ++ a ++ "`" ++ "\n" ++ formatIPs (b :: rest)) :=
  ⟨formatIPs_eq_intercalate ips, formatIPs_nil, formatIPs_singleton, formatIPs_cons_cons⟩

/-- C5. The block of a family is formatted from the slice
`ips[:min(len(ips), 25)]`, which is the first 25 entries of the list: for a
list of more than 25 entries it has exactly 25 entries, entry `i` of it is
entry `i` of the list, and the block does not change when the later entries
are replaced by anything else; for a list of at most 25 entries the block
is formatted from the whole list. -/
theorem block_from_first25 (ips : List String) :
    sliceTo ips (min (ips.length : Int) 25) = some (ips.take 25)
      ∧ selectAndFormat ips = some (formatIPs (ips.take 25))
      ∧ (25 < ips.length →
          (ips.take 25).length = 25
            ∧ (∀ i, i < 25 → (ips.take 25)[i]? = ips[i]?)
            ∧ ∀ later : List String,
                selectAndFormat (ips.take 25 ++ later) = selectAndFormat ips)
      ∧ (ips.length ≤ 25 → selectAndFormat ips = some (formatIPs ips)) := by
  refine ⟨sliceTo_min ips, selectAndFormat_eq ips, ?_, ?_⟩
  · intro hlen
    have h25 : (ips.take 25).length = 25 := by
      rw [List.length_take]
      exact Nat.min_eq_left (Nat.le_of_lt hlen)
    refine ⟨h25, ?_, ?_⟩
    · intro i hi
      exact List.getElem?_take_of_lt hi
    · intro later
      rw [selectAndFormat_eq, selectAndFormat_eq, List.take_append_of_le_length (by omega),
        List.take_take]
      simp
  · intro hlen
    rw [selectAndFormat_eq, List.take_of_length_le hlen]

/-- C6. In every run in which both fetches succeed and both flattened
address lists are empty, the notifier is called zero times: after the
configuration warnings the run consists of the two fetches only. -/
theorem silent_when_both_empty (w : World) (r4 r6 : OptimizationIPResponse)
    (h4 : getOptimizationIP w "v4" = .ok r4) (h6 : getOptimizationIP w "v6" = .ok r6)
    (e4 : addresses r4 = []) (e6 : addresses r6 = []) :
    notifications (main w) = []
      ∧ main w = (readConfig w).2 ++ [Event.fetch "v4", Event.fetch "v6"] := by
  constructor
  · rw [notifications_main_ok w r4 r6 h4 h6, notifications_report, e4, e6]
    rfl
  · rw [main_ok w r4 r6 h4 h6, e4, e6]
    simp [report]

/-- C7. A fetch returns an error exactly when the request fails in
transport, the HTTP status is not 200, the body cannot be read, or the body
does not decode; and in every run in which the v4 fetch or the v6 fetch
returns an error, the notifier is called zero times (so a v4 result with
addresses is dropped when the v6 fetch fails). -/
theorem silent_on_fetch_error (w : World) :
    (∀ ipType, (∃ e, getOptimizationIP w ipType = .error e)
        ↔ (∃ err, w.provider ipType = .sendFailed err)
          ∨ (∃ status body, w.provider ipType = .response status body ∧ status ≠ 200)
          ∨ (∃ err, w.provider ipType = .response 200 (.error err))
          ∨ (∃ body err, w.provider ipType = .response 200 (.ok body)
              ∧ w.unmarshal body = .error err))
      ∧ ((∃ e, getOptimizationIP w "v4" = .error e)
          ∨ (∃ e, getOptimizationIP w "v6" = .error e) →
        notifications (main w) = []) := by
  refine ⟨getOptimizationIP_error_iff w, ?_⟩
  intro h
  cases h4 : getOptimizationIP w "v4" with
  | error e =>
    rw [main_v4_error w e h4, notifications_append, notifications_readConfig]
    rfl
  | ok r4 =>
    rcases h with ⟨e, he⟩ | ⟨e, he⟩
    · rw [h4] at he
      cases he
    · rw [main_v6_error w r4 e h4 he, notifications_append, notifications_readConfig]
      rfl

/-- C8. For every pair of successful fetch results of which at least one
has a non-empty flattened list, the notifier is called exactly once, with
the configured token and chat id, the photo `images.png`, and the text made
of the header, the IPv4 block (only if the IPv4 list is non-empty), the
IPv6 block (only if the IPv6 list is non-empty) and the signature. -/
theorem notified_once (w : World) (r4 r6 : OptimizationIPResponse)
    (h4 : getOptimizationIP w "v4" = .ok r4) (h6 : getOptimizationIP w "v6" = .ok r6)
    (hne : addresses r4 ≠ [] ∨ addresses r6 ≠ []) :
    notifications (main w)
      = [((LookupEnv w.env "BOT_TOKEN").1, (LookupEnv w.env "CHAT_ID").1,
          "CloudFlare Optimized IPs:\n\n"
            ++ (if (addresses r4).length > 0 then
                  "IPv4:\n" ++ formatIPs ((addresses r4).take 25) ++ "\n\n" else "")
            ++ (if (addresses r6).length > 0 then
                  "IPv6:\n" ++ formatIPs ((addresses r6).take 25) ++ "\n\n" else "")
            ++ "@infoakungratis",
          "images.png")] := by
  rw [notifications_main_ok w r4 r6 h4 h6, notifications_report]
  have hpos : (addresses r4).length > 0 ∨ (addresses r6).length > 0 := by
    rcases hne with h | h
    · exact Or.inl (List.length_pos.mpr h)
    · exact Or.inr (List.length_pos.mpr h)
  rw [if_pos hpos]

/-- C9, as amended. If the v4 fetch returns a decoded response whose `Code`
is 500, the IPv4 list is empty and no v4 fetch error is printed. If the v6
fetch then returns an error, that error is printed and the notifier is not
called; if it succeeds with no address the notifier is not called; if it
succeeds with at least one address the notifier is called exactly once,
with a message holding the IPv6 block only. -/
theorem code500_is_no_fetch_error (w : World) (r4 : OptimizationIPResponse)
    (h4 : getOptimizationIP w "v4" = .ok r4) (hc : r4.Code = 500) :
    addresses r4 = []
      ∧ (∀ e, getOptimizationIP w "v6" = .error e →
          main w = (readConfig w).2
              ++ [Event.fetch "v4", Event.fetch "v6",
                  Event.print ("Error getting IPv6: " ++ e ++ "\n")]
            ∧ notifications (main w) = [])
      ∧ (∀ r6, getOptimizationIP w "v6" = .ok r6 →
          main w = (readConfig w).2 ++ [Event.fetch "v4", Event.fetch "v6"]
              ++ report w (LookupEnv w.env "BOT_TOKEN").1 (LookupEnv w.env "CHAT_ID").1
                  "images.png" [] (addresses r6)
            ∧ (addresses r6 = [] → notifications (main w) = [])
            ∧ (addresses r6 ≠ [] →
                notifications (main w)
                  = [((LookupEnv w.env "BOT_TOKEN").1, (LookupEnv w.env "CHAT_ID").1,
                      "CloudFlare Optimized IPs:\n\n"
                        ++ ("IPv6:\n" ++ formatIPs ((addresses r6).take 25) ++ "\n\n")
                        ++ "@infoakungratis",
                      "images.png")])) := by
  have he : addresses r4 = [] := by
    unfold addresses
    rw [if_neg]
    rintro ⟨h1, _⟩
    omega
  refine ⟨he, ?_, ?_⟩
  · intro e h6
    have hm := main_v6_error w r4 e h4 h6
    refine ⟨hm, ?_⟩
    rw [hm, notifications_append, notifications_readConfig]
    rfl
  · intro r6 h6
    have hm := main_ok w r4 r6 h4 h6
    rw [he] at hm
    refine ⟨hm, ?_, ?_⟩
    · intro e6
      rw [notifications_main_ok w r4 r6 h4 h6, notifications_report, he, e6]
      rfl
    · intro n6
      have hpos : (addresses r6).length > 0 := List.length_pos.mpr n6
      rw [notifications_main_ok w r4 r6 h4 h6, notifications_report, he]
      simp [hpos]

/-- C10. For every pair of successful fetch results, however many records
they hold, if every `IP` string has at most 45 characters then every message
passed to the notifier has at most 27 + 2*(6 + 25*47 + 24 + 2) + 15 = 2456
characters, which is below 4096. -/
theorem message_length_bound (w : World) (r4 r6 : OptimizationIPResponse)
    (h4 : getOptimizationIP w "v4" = .ok r4) (h6 : getOptimizationIP w "v6" = .ok r6)
    (hl4 : ∀ ip ∈ records r4, ip.IP.length ≤ 45)
    (hl6 : ∀ ip ∈ records r6, ip.IP.length ≤ 45) :
    ∀ t c m i, (t, c, m, i) ∈ notifications (main w) →
      m.length ≤ 27 + 2 * (6 + 25 * 47 + 24 + 2) + 15
        ∧ m.length ≤ 2456 ∧ m.length < 4096 := by
  intro t c m i hmem
  rw [notifications_main_ok w r4 r6 h4 h6, notifications_report] at hmem
  have ha4 : ∀ a ∈ addresses r4, a.length ≤ 45 := by
    intro a ha
    obtain ⟨ip, hip, rfl⟩ := mem_addresses r4 a ha
    exact hl4 ip hip
  have ha6 : ∀ a ∈ addresses r6, a.length ≤ 45 := by
    intro a ha
    obtain ⟨ip, hip, rfl⟩ := mem_addresses r6 a ha
    exact hl6 ip hip
  split at hmem
  · rw [List.mem_singleton] at hmem
    have hm : m = _ := congrArg (fun q => q.2.2.1) hmem
    simp only at hm
    have b4 := block_length_le "IPv4:\n" (addresses r4) rfl ha4
    have b6 := block_length_le "IPv6:\n" (addresses r6) rfl ha6
    have hh : "CloudFlare Optimized IPs:\n\n".length = 27 := rfl
    have hs : "@infoakungratis".length = 15 := rfl
    rw [hm]
    simp only [String.length_append, hh, hs]
    omega
  · cases hmem

/-! ## The claims at concrete inputs -/

/-- C1 at the two-region response, read against the same map listed in the
other order. -/
theorem addresses_exact_witness :
    twoRegions.Code = 200 ∧ twoRegions.Total > 0
      ∧ addresses twoRegions = ["1.1.1.1", "1.1.1.2", "1.0.0.1"]
      ∧ Multiset.ofList (addresses twoRegions)
          = Multiset.ofList ["1.0.0.1", "1.1.1.1", "1.1.1.2"]
      ∧ (addresses twoRegions).length = 1 + 2 := by
  have h := addresses_exact twoRegions
    [("DE", [sampleRecord "1.0.0.1"]), ("US", [sampleRecord "1.1.1.1", sampleRecord "1.1.1.2"])]
    (by decide) (by decide) (List.Perm.swap _ _ _)
  exact ⟨by decide, by decide, by decide, h.1, h.2.1⟩

/-- C2 at two responses whose `Info` holds records: one with `Code` 201 and
`Total` 1, one with `Code` 200 and `Total` 0. The loops alone would yield
their addresses; the guard leaves the list empty, and the message built
with it has no section for that family. -/
theorem addresses_empty_witness :
    (code201WithRecords.Code ≠ 200
        ∧ flattenInto [] code201WithRecords.Info = ["1.1.1.1", "1.1.1.2"]
        ∧ addresses code201WithRecords = []
        ∧ buildMessage (addresses code201WithRecords) ["2606:4700::1"]
            = some "CloudFlare Optimized IPs:\n\nIPv6:\n`2606:4700::1`\n\n@infoakungratis")
      ∧ (totalZeroWithRecords.Total = 0
        ∧ flattenInto [] totalZeroWithRecords.Info = ["1.1.1.1", "1.1.1.2", "1.0.0.1"]
        ∧ addresses totalZeroWithRecords = []
        ∧ buildMessage ["1.1.1.1"] (addresses totalZeroWithRecords)
            = some "CloudFlare Optimized IPs:\n\nIPv4:\n`1.1.1.1`\n\n@infoakungratis") := by
  have h1 := addresses_empty code201WithRecords (Or.inl (by decide))
  have h2 := addresses_empty totalZeroWithRecords (Or.inr (by decide))
  exact ⟨⟨by decide, by decide, h1.1, (h1.2.1 ["2606:4700::1"]).trans (by decide)⟩,
    ⟨by decide, by decide, h2.1, (h2.2.2 ["1.1.1.1"]).trans (by decide)⟩⟩

/-- C3 at thirty addresses: 25 lines. -/
theorem selectAndFormat_lines_witness :
    (∀ a ∈ thirtyAddresses, '\n' ∉ a.data)
      ∧ ∃ out, selectAndFormat thirtyAddresses = some out
          ∧ lines out = (thirtyAddresses.take 25).map (fun ip => "`" ++ ip ++ "`")
          ∧ (lines out).length = Nat.min thirtyAddresses.length 25
          ∧ (lines out).length ≤ 25 :=
  ⟨by decide, selectAndFormat_lines thirtyAddresses (by decide)⟩

/-- C5 at thirty addresses and at two addresses. -/
theorem block_from_first25_witness :
    25 < thirtyAddresses.length
      ∧ (thirtyAddresses.take 25).length = 25
      ∧ (∀ later : List String,
          selectAndFormat (thirtyAddresses.take 25 ++ later) = selectAndFormat thirtyAddresses)
      ∧ selectAndFormat ["a", "b"] = some (formatIPs ["a", "b"]) := by
  have h30 := (block_from_first25 thirtyAddresses).2.2.1 (by decide)
  exact ⟨by decide, h30.1, h30.2.2, (block_from_first25 ["a", "b"]).2.2.2 (by decide)⟩

/-- C6 at two successful fetches without addresses. -/
theorem silent_when_both_empty_witness :
    getOptimizationIP (successWorld noAddresses noAddresses) "v4" = .ok noAddresses
      ∧ getOptimizationIP (successWorld noAddresses noAddresses) "v6" = .ok noAddresses
      ∧ addresses noAddresses = []
      ∧ notifications (main (successWorld noAddresses noAddresses)) = [] :=
  ⟨rfl, rfl, rfl,
    (silent_when_both_empty (successWorld noAddresses noAddresses) noAddresses noAddresses
      rfl rfl rfl rfl).1⟩

/-- C7 at a run whose v4 fetch yields two addresses and whose v6 fetch meets
HTTP status 503. -/
theorem silent_on_fetch_error_witness :
    getOptimizationIP v6DownWorld "v4" = .ok twoAddresses
      ∧ addresses twoAddresses = ["1.1.1.1", "1.1.1.2"]
      ∧ getOptimizationIP v6DownWorld "v6" = .error "unexpected status code: 503"
      ∧ notifications (main v6DownWorld) = [] :=
  ⟨rfl, by decide, rfl, (silent_on_fetch_error v6DownWorld).2 (Or.inr ⟨_, rfl⟩)⟩

/-- C8 at the scenario of the specification: two IPv4 addresses and no IPv6
address give one call, with an IPv4 block of two lines and no IPv6 block. -/
theorem notified_once_witness :
    addresses twoAddresses ≠ []
      ∧ notifications (main (successWorld twoAddresses noAddresses))
          = [("123:abc", "-1001",
              "CloudFlare Optimized IPs:\n\nIPv4:\n`1.1.1.1`\n`1.1.1.2`\n\n@infoakungratis",
              "images.png")] :=
  ⟨by decide,
    (notified_once (successWorld twoAddresses noAddresses) twoAddresses noAddresses rfl rfl
      (Or.inl (by decide))).trans (by decide)⟩

/-- C9 as stated fails: the v4 fetch returns `{code:500}` without an error,
the v6 fetch returns one address, and the run prints no fetch error and
calls the notifier once. -/
theorem code500_counterexample :
    getOptimizationIP (successWorld code500 oneAddressV6) "v4" = .ok code500
      ∧ code500.Code = 500
      ∧ main (successWorld code500 oneAddressV6)
          = [Event.fetch "v4", Event.fetch "v6",
              Event.notify "123:abc" "-1001"
                "CloudFlare Optimized IPs:\n\nIPv6:\n`2606:4700::1`\n\n@infoakungratis"
                "images.png",
              Event.print "200 OK"]
      ∧ (notifications (main (successWorld code500 oneAddressV6))).length = 1
      ∧ printed (main (successWorld code500 oneAddressV6)) = ["200 OK"] :=
  ⟨rfl, rfl, by decide, by decide, by decide⟩

/-- C9 as amended, at a run whose v4 fetch returns `{code:500}` and whose v6
fetch fails in transport. -/
theorem code500_is_no_fetch_error_witness :
    getOptimizationIP code500ThenTimeout "v4" = .ok code500
      ∧ code500.Code = 500
      ∧ main code500ThenTimeout
          = [Event.fetch "v4", Event.fetch "v6",
              Event.print "Error getting IPv6: failed to send request: timeout\n"]
      ∧ notifications (main code500ThenTimeout) = [] := by
  have h := (code500_is_no_fetch_error code500ThenTimeout code500 rfl rfl).2.1
    "failed to send request: timeout" rfl
  exact ⟨rfl, rfl, h.1.trans (by decide), h.2⟩

/-- C10 at a run whose v4 response holds thirty records. -/
theorem message_length_bound_witness :
    (∀ ip ∈ records thirtyRecords, ip.IP.length ≤ 45)
      ∧ (∀ ip ∈ records oneAddressV6, ip.IP.length ≤ 45)
      ∧ notifications (main (successWorld thirtyRecords oneAddressV6)) ≠ []
      ∧ ∀ t c m i, (t, c, m, i) ∈ notifications (main (successWorld thirtyRecords oneAddressV6)) →
          m.length ≤ 27 + 2 * (6 + 25 * 47 + 24 + 2) + 15
            ∧ m.length ≤ 2456 ∧ m.length < 4096 :=
  ⟨by decide, by decide, by decide,
    message_length_bound (successWorld thirtyRecords oneAddressV6) thirtyRecords oneAddressV6
      rfl rfl (by decide) (by decide)⟩

end Cf2tg
